import Mathlib

/-!
Verification of the query-refinement and grounding pipeline of
`src/improved_rag.py` (repository vvbauman/azureOpenAIChatbot).

The Python functions are embedded shallowly:

* JSON argument strings of tool invocations are modelled by their parse
  outcome (`JsonDoc`): either `malformed` (so that `json.loads` raises a
  `JSONDecodeError`) or a parsed object, an association list of fields whose
  values are strings or numbers (`JVal`).
* Python exceptions become the `.error` branch of `Except PyError`.
* Python truthiness of `Optional` lists / strings is made explicit
  (`None` and the empty collection are falsy).
* Python `!=` between a decoded JSON value and the integer literal `0`
  is `pyNeZeroInt`: a string compared with an integer is always unequal.
* The documents returned by the search service are modelled by the three
  fields the script projects out with `doc.get(...)` (absent key ↦ `none`);
  the relevance score, a float only ever passed through and never computed
  with, is carried as a rational number.
-/

namespace ImprovedRag

/-- A JSON value appearing as a tool-call argument: the script only ever
meets strings (per the declared tool schema) and the numeric sentinel. -/
inductive JVal where
  | str (s : String)
  | num (n : Int)
  deriving DecidableEq, Repr

/-- The JSON argument string of a tool invocation, modelled by its parse
outcome: `malformed` makes `json.loads` raise, `obj` is the parsed mapping. -/
inductive JsonDoc where
  | malformed
  | obj (fields : List (String × JVal))
  deriving DecidableEq, Repr

/-- The Python exceptions the embedded fragments can raise. -/
inductive PyError where
  | indexError
  | jsonDecodeError
  | typeError
  | keyError
  deriving DecidableEq, Repr

instance {ε α : Type} [DecidableEq ε] [DecidableEq α] : DecidableEq (Except ε α) :=
  fun a b =>
    match a, b with
    | .error e₁, .error e₂ => decidable_of_iff (e₁ = e₂) (by simp)
    | .ok a₁, .ok a₂ => decidable_of_iff (a₁ = a₂) (by simp)
    | .error _, .ok _ => isFalse (fun h => Except.noConfusion h)
    | .ok _, .error _ => isFalse (fun h => Except.noConfusion h)

/-- `json.loads` on a tool invocation's argument string. -/
def json_loads : JsonDoc → Except PyError (List (String × JVal))
  | .malformed => .error .jsonDecodeError
  | .obj fields => .ok fields

/-- Python `value != 0` where `value` came from JSON: a string is never
equal to the integer `0`, a number is compared numerically. -/
def pyNeZeroInt : JVal → Bool
  | .str _ => true
  | .num n => n != 0

/-- The `function` payload of a tool call: a name and a JSON argument
string (modelled by its parse outcome). -/
structure ToolFunction where
  name : String
  arguments : JsonDoc
  deriving DecidableEq, Repr

/-- One entry of `message.tool_calls`. -/
structure ToolCall where
  type : String
  function : ToolFunction
  deriving DecidableEq, Repr

/-- A chat message of a completion choice: `tool_calls` is `Optional[list]`,
`content` is `Optional[str]`. -/
structure ChatMessage where
  tool_calls : Option (List ToolCall)
  content : Option String
  deriving DecidableEq, Repr

/-- One completion choice (`choice.message`). -/
structure Choice where
  message : ChatMessage
  deriving DecidableEq, Repr

/-- A chat completion response: a list of choices. -/
structure ChatCompletion where
  choices : List Choice
  deriving DecidableEq, Repr

/-- Python truthiness of `response_msg.tool_calls`: `None` and `[]` are
falsy, a non-empty list is truthy. -/
def truthyToolCalls : Option (List ToolCall) → Bool
  | none => false
  | some [] => false
  | some (_ :: _) => true

/-- The `for tool in response_msg.tool_calls` loop of `get_search_query`
(lines 72-80): skip entries whose `type` is not `"function"`; for an entry
named `"search_sources"` parse its arguments (a malformed argument string
raises out of the whole loop), read `search_query` with default `0`, and
return it if it is `!= 0`; otherwise keep scanning.  `.ok none` means the
loop fell through without returning. -/
def scanToolCalls : List ToolCall → Except PyError (Option JVal)
  | [] => .ok none
  | tool :: rest =>
    if tool.type != "function" then
      scanToolCalls rest
    else if tool.function.name == "search_sources" then
      match json_loads tool.function.arguments with
      | .error e => .error e
      | .ok arg =>
        let search_query := (arg.lookup "search_query").getD (.num 0)
        if pyNeZeroInt search_query then .ok (some search_query)
        else scanToolCalls rest
    else
      scanToolCalls rest

/-- `get_search_query(chat_completion, user_query)` (lines 66-84).
`choices[0]` on an empty list raises `IndexError`.  When `tool_calls` is
truthy the free-text `elif` branch is skipped entirely; when it is falsy
and `content` is truthy, the guard `query_text.strip() != 0` compares a
string with the integer `0` (always true) and the *untrimmed* content is
returned.  Otherwise the raw `user_query` is returned. -/
def get_search_query (chat_completion : ChatCompletion) (user_query : String) :
    Except PyError JVal :=
  match chat_completion.choices with
  | [] => .error .indexError
  | choice :: _ =>
    let response_msg := choice.message
    if truthyToolCalls response_msg.tool_calls then
      match scanToolCalls (response_msg.tool_calls.getD []) with
      | .error e => .error e
      | .ok (some search_query) => .ok search_query
      | .ok none => .ok (.str user_query)
    else
      match response_msg.content with
      | some query_text =>
        if query_text != "" then
          if pyNeZeroInt (.str query_text.trim) then .ok (.str query_text)
          else .ok (.str user_query)
        else .ok (.str user_query)
      | none => .ok (.str user_query)

/-- A document of a search-result page, projected to the three fields the
script reads with `doc.get(k)` (lines 179-181); an absent key is `none`.
The per-field highlight mapping `@search.highlights` maps a field name to
its snippet list. -/
structure SearchResult where
  content : Option String
  score : Option ℚ
  highlights : Option (List (String × List String))
  deriving DecidableEq, Repr

/-- The `Doc` dataclass (lines 25-30). -/
structure Doc where
  content : Option String
  score : Option ℚ := none
  highlight : Option (List (String × List String)) := none
  deriving DecidableEq, Repr

/-- The `Doc(...)` construction inside the page loop (lines 177-185):
each field is `doc.get(key)`, so a missing key yields `none`, never an
exception. -/
def mkDoc (doc : SearchResult) : Doc :=
  { content := doc.content, score := doc.score, highlight := doc.highlights }

/-- The page-draining loop (lines 174-185): `docs = []`, then
`for page in search_results.by_page(): for doc in page: docs.append(...)`. -/
def collectDocs (pages : List (List SearchResult)) : List Doc :=
  pages.foldl (fun docs page => page.foldl (fun ds doc => ds ++ [mkDoc doc]) docs) []

/-- `d.highlight["content"]` for one retrieved document (line 193):
subscripting `None` raises `TypeError`, a mapping without the key raises
`KeyError`. -/
def highlightContent (d : Doc) : Except PyError (List String) :=
  match d.highlight with
  | none => .error .typeError
  | some m =>
    match m.lookup "content" with
    | none => .error .keyError
    | some snippets => .ok snippets

/-- The comprehension `[e for d in docs for e in d.highlight["content"]]`
(line 193), flattening every document's content-highlight list in document
order; the first document whose highlight access raises aborts the whole
comprehension. -/
def gatherHighlights : List Doc → Except PyError (List String)
  | [] => .ok []
  | d :: rest =>
    match highlightContent d with
    | .error e => .error e
    | .ok snippets =>
      match gatherHighlights rest with
      | .error e => .error e
      | .ok more => .ok (snippets ++ more)

/-- The `new_user_content` argument of the grounded-answer `build_messages`
call (line 193): the query wrapped in double asterisks followed by the
space-joined flattened highlights. -/
def buildGroundedContent (query_text : String) (docs : List Doc) :
    Except PyError String :=
  match gatherHighlights docs with
  | .error e => .error e
  | .ok snippets => .ok ("**" ++ query_text ++ "**" ++ String.intercalate " " snippets)

/-- The reply extraction of step 4 (line 205):
`chat_reply.choices[0].message.content + "\n"`.  Zero choices raise
`IndexError`; a `None` content raises `TypeError` on the concatenation;
any string content - the empty string included - is displayed. -/
def display_reply (chat_reply : ChatCompletion) : Except PyError String :=
  match chat_reply.choices with
  | [] => .error .indexError
  | choice :: _ =>
    match choice.message.content with
    | none => .error .typeError
    | some s => .ok (s ++ "\n")

/-- The blocking external calls one turn of the `while` loop performs, in
order: the query-generation completion (line 155), the retrieval call
(line 167) and the grounded-answer completion (line 198). -/
inductive TurnEvent where
  | queryCompletion
  | retrievalCall
  | groundedCompletion
  deriving DecidableEq, Repr

/-- The three external calls of one loop body, in program order. -/
def turnEvents : List TurnEvent :=
  [.queryCompletion, .retrievalCall, .groundedCompletion]

/-- The `while q < max_questions` loop (lines 137-212) reduced to the
trace of external calls it issues, starting from counter value `q`;
each iteration emits one `turnEvents` block and increments `q`. -/
def loopFrom (q max_questions : Nat) : List TurnEvent :=
  if q < max_questions then turnEvents ++ loopFrom (q + 1) max_questions
  else []
termination_by max_questions - q
decreasing_by omega

/-- The whole conversation loop of `main`: `q = 0` before the `while`. -/
def mainLoopEvents (max_questions : Nat) : List TurnEvent :=
  loopFrom 0 max_questions

/-- An element of the `messages` list the loop threads between turns. -/
inductive LoopMsg where
  | listSelf
  | chat (role : String) (content : String)
  deriving DecidableEq, Repr

/-- The end-of-turn history update (lines 210-211): `messages = []`
rebinds `messages` to a fresh empty list, then `messages.append(messages)`
appends that list to itself, so the previous history and the produced
assistant reply are both discarded and the new history is the length-one
self-referential list `[<the list itself>]`. -/
def endOfTurnUpdate (_messages : List LoopMsg) (_assistant_reply : String) :
    List LoopMsg :=
  [LoopMsg.listSelf]

/-- The `past_messages` argument of both `build_messages` calls
(lines 149 and 192): `[] if q == 0 else messages[:-1]`. -/
def pastMessagesArg (q : Nat) (messages : List LoopMsg) : List LoopMsg :=
  if q == 0 then [] else messages.dropLast

/-! ### Helper lemmas about the tool-call scan -/

/-- A tool call whose `type` is not `"function"` or whose function name is
not `"search_sources"` is skipped by the scan, its argument string never
parsed. -/
lemma scanToolCalls_cons_skip (t : ToolCall) (ts : List ToolCall)
    (h : t.type ≠ "function" ∨ t.function.name ≠ "search_sources") :
    scanToolCalls (t :: ts) = scanToolCalls ts := by
  by_cases ht : t.type = "function"
  · rcases h with h | h
    · exact absurd ht h
    · simp [scanToolCalls, ht, h]
  · simp [scanToolCalls, ht]

/-- A whole prefix of skipped tool calls does not affect the scan. -/
lemma scanToolCalls_append_skip (pre l : List ToolCall)
    (h : ∀ t ∈ pre, t.type ≠ "function" ∨ t.function.name ≠ "search_sources") :
    scanToolCalls (pre ++ l) = scanToolCalls l := by
  induction pre with
  | nil => rfl
  | cons t ts ih =>
    rw [List.cons_append, scanToolCalls_cons_skip t _ (h t (by simp)),
      ih (fun x hx => h x (by simp [hx]))]

/-- A matching head whose parsed arguments carry a `search_query` that is
Python-unequal to the integer `0` makes the scan return that value. -/
lemma scanToolCalls_cons_found (tc : ToolCall) (rest : List ToolCall)
    (fields : List (String × JVal)) (x : JVal)
    (htype : tc.type = "function") (hname : tc.function.name = "search_sources")
    (hargs : tc.function.arguments = .obj fields)
    (hx : fields.lookup "search_query" = some x) (hnz : pyNeZeroInt x = true) :
    scanToolCalls (tc :: rest) = .ok (some x) := by
  simp [scanToolCalls, htype, hname, hargs, json_loads, hx, hnz]

/-- A matching head with a malformed argument string makes the whole scan
raise the JSON decode error. -/
lemma scanToolCalls_cons_malformed (tc : ToolCall) (rest : List ToolCall)
    (htype : tc.type = "function") (hname : tc.function.name = "search_sources")
    (hargs : tc.function.arguments = .malformed) :
    scanToolCalls (tc :: rest) = .error .jsonDecodeError := by
  simp [scanToolCalls, htype, hname, hargs, json_loads]

/-- Whatever value the scan returns passed the `!= 0` guard; in particular
the numeric sentinel `0` is never returned by the scan. -/
lemma scanToolCalls_ok_ne_zero (l : List ToolCall) (q : JVal)
    (h : scanToolCalls l = .ok (some q)) : pyNeZeroInt q = true := by
  induction l with
  | nil => simp [scanToolCalls] at h
  | cons t ts ih =>
    rw [scanToolCalls] at h
    split at h
    · exact ih h
    · split at h
      · cases hj : json_loads t.function.arguments with
        | error e => rw [hj] at h; cases h
        | ok arg =>
          rw [hj] at h
          dsimp only at h
          split at h
          · rename_i hz
            simp only [Except.ok.injEq, Option.some.injEq] at h
            subst h
            exact hz
          · exact ih h
      · exact ih h

/-- A `some` list is truthy exactly when it is non-empty. -/
lemma truthyToolCalls_some (l : List ToolCall) (h : l ≠ []) :
    truthyToolCalls (some l) = true := by
  cases l with
  | nil => exact absurd rfl h
  | cons t ts => rfl

/-! ### Concrete responses used as counterexample inputs -/

/-- A response carrying one tool invocation that does not match
(`"function"` type but a different function name) together with free-text
content. -/
def nonMatchingToolResponse : ChatCompletion :=
  ⟨[⟨⟨some [⟨"function", ⟨"other_tool", .obj []⟩⟩], some "hello query"⟩⟩]⟩

/-- A response with no tool invocations whose content has surrounding
whitespace. -/
def whitespaceContentResponse : ChatCompletion :=
  ⟨[⟨⟨none, some " hello "⟩⟩]⟩

/-- A response whose only tool invocation matches and carries the string
sentinel `"0"` as its `search_query`. -/
def stringZeroToolResponse : ChatCompletion :=
  ⟨[⟨⟨some [⟨"function", ⟨"search_sources", .obj [("search_query", .str "0")]⟩⟩],
      none⟩⟩]⟩

/-- A response whose first matching tool invocation has a malformed JSON
argument string, followed by a well-formed matching invocation and by
free-text content. -/
def malformedFirstResponse : ChatCompletion :=
  ⟨[⟨⟨some [⟨"function", ⟨"search_sources", .malformed⟩⟩,
            ⟨"function", ⟨"search_sources", .obj [("search_query", .str "good query")]⟩⟩],
      some "free text"⟩⟩]⟩

/-- A response with no tool invocations whose content is the sentinel
string `"0"`. -/
def contentZeroResponse : ChatCompletion :=
  ⟨[⟨⟨none, some "0"⟩⟩]⟩

/-! ### C1 — fallback chain of the Query Extractor -/

/-- C1 (counterexample): the claim says the trimmed free-text content is
returned whenever no tool invocation matches, even if tool invocations are
present.  On a response with one non-matching tool invocation and content
`"hello query"` the code returns the raw user input, not the content; and
on a no-tool-call response with content `" hello "` it returns the content
untrimmed, not the trimmed `"hello"`. -/
theorem C1_fallback_chain_counterexample :
    get_search_query nonMatchingToolResponse "raw input" = .ok (.str "raw input")
  ∧ get_search_query nonMatchingToolResponse "raw input" ≠ .ok (.str "hello query")
  ∧ get_search_query whitespaceContentResponse "raw input" = .ok (.str " hello ")
  ∧ get_search_query whitespaceContentResponse "raw input" ≠ .ok (.str "hello") :=
  ⟨rfl, by decide, rfl, by decide⟩

/-- C1 (amended): the free-text fallback only applies to responses whose
`tool_calls` is falsy (`None` or empty); for such a response with non-empty
content, `get_search_query` returns that content string unchanged — not
trimmed, and even when it is whitespace-only or the sentinel `"0"`, since
the guard compares a stripped string against the integer `0` and never
fires.  A response that does carry tool invocations never reaches the
free-text branch. -/
theorem C1_fallback_chain_amended (tcs : Option (List ToolCall)) (s u : String)
    (hT : truthyToolCalls tcs = false) (hNe : s ≠ "") :
    get_search_query ⟨[⟨⟨tcs, some s⟩⟩]⟩ u = .ok (.str s) := by
  simp [get_search_query, hT, hNe, pyNeZeroInt]

/-- C1 witness: the amended theorem at a concrete no-tool-call response. -/
theorem C1_fallback_chain_amended_witness :
    get_search_query ⟨[⟨⟨none, some "eye exams"⟩⟩]⟩ "raw input"
      = .ok (.str "eye exams") :=
  C1_fallback_chain_amended none "eye exams" "raw input" rfl (by decide)

/-! ### C2 — query precedence of the Query Extractor -/

/-- C2 (counterexample): the claim says a `search_query` equal to the
string sentinel `"0"` is never returned from step 1; but the guard
`search_query != 0` compares the string with the integer `0`, which is
always true in Python, so the string `"0"` is returned. -/
theorem C2_query_precedence_counterexample :
    get_search_query stringZeroToolResponse "raw input" = .ok (.str "0")
  ∧ get_search_query stringZeroToolResponse "raw input" ≠ .ok (.str "raw input") :=
  ⟨rfl, by decide⟩

/-- C2 (amended): for a response whose first matching tool invocation
(type `"function"`, name `"search_sources"`, well-formed arguments, after
any prefix of non-matching invocations) carries `search_query = x` with
`x` Python-unequal to the integer `0` — any string, the string `"0"`
included, or any non-zero number — `get_search_query` returns exactly `x`
regardless of the free-text content; and the numeric sentinel `0` is never
returned by the tool-call scan. -/
theorem C2_query_precedence_amended :
    (∀ (pre rest : List ToolCall) (tc : ToolCall) (fields : List (String × JVal))
       (x : JVal) (content : Option String) (u : String),
       (∀ t ∈ pre, t.type ≠ "function" ∨ t.function.name ≠ "search_sources") →
       tc.type = "function" → tc.function.name = "search_sources" →
       tc.function.arguments = .obj fields →
       fields.lookup "search_query" = some x → pyNeZeroInt x = true →
       get_search_query ⟨[⟨⟨some (pre ++ tc :: rest), content⟩⟩]⟩ u = .ok x)
  ∧ (∀ tools : List ToolCall, scanToolCalls tools ≠ .ok (some (.num 0))) := by
  constructor
  · intro pre rest tc fields x content u hpre htype hname hargs hx hnz
    have hscan : scanToolCalls (pre ++ tc :: rest) = .ok (some x) := by
      rw [scanToolCalls_append_skip pre _ hpre,
        scanToolCalls_cons_found tc rest fields x htype hname hargs hx hnz]
    have htr : truthyToolCalls (some (pre ++ tc :: rest)) = true := by
      cases pre <;> rfl
    simp [get_search_query, htr, hscan]
  · intro tools hcontra
    have := scanToolCalls_ok_ne_zero tools (.num 0) hcontra
    simp [pyNeZeroInt] at this

/-- C2 witness: the amended theorem at a concrete matching invocation,
with free-text content also present, and the scan on the empty list. -/
theorem C2_query_precedence_amended_witness :
    get_search_query
        ⟨[⟨⟨some [⟨"function",
              ⟨"search_sources", .obj [("search_query", .str "vacation days policy")]⟩⟩],
            some "free text also present"⟩⟩]⟩ "raw input"
      = .ok (.str "vacation days policy")
  ∧ scanToolCalls [] ≠ .ok (some (.num 0)) :=
  ⟨C2_query_precedence_amended.1 [] [] _ _ _ (some "free text also present") "raw input"
      (by simp) rfl rfl rfl rfl rfl,
   C2_query_precedence_amended.2 []⟩

/-! ### C4 — malformed tool arguments -/

/-- C4 (counterexample): the claim says a malformed JSON argument string
is recovered locally — the invocation is skipped and extraction continues.
On a response whose first matching invocation is malformed the code raises
the decode error out of `get_search_query`, aborting the turn, instead of
continuing to the next invocation (which carries `"good query"`) or to the
free-text content. -/
theorem C4_malformed_arguments_counterexample :
    get_search_query malformedFirstResponse "raw input" = .error .jsonDecodeError
  ∧ get_search_query malformedFirstResponse "raw input" ≠ .ok (.str "good query")
  ∧ get_search_query malformedFirstResponse "raw input" ≠ .ok (.str "free text") :=
  ⟨rfl, by decide, by decide⟩

/-- C4 (amended): invocations whose type is not `"function"` or whose name
is not `"search_sources"` are skipped without their arguments ever being
parsed, so malformed arguments there are harmless; but a malformed
argument string on the first *matching* invocation raises a JSON decode
error that propagates out of `get_search_query` and aborts the turn — no
local recovery takes place. -/
theorem C4_malformed_arguments_amended :
    (∀ (t : ToolCall) (ts : List ToolCall),
       t.type ≠ "function" ∨ t.function.name ≠ "search_sources" →
       scanToolCalls (t :: ts) = scanToolCalls ts)
  ∧ (∀ (pre rest : List ToolCall) (tc : ToolCall) (content : Option String) (u : String),
       (∀ t ∈ pre, t.type ≠ "function" ∨ t.function.name ≠ "search_sources") →
       tc.type = "function" → tc.function.name = "search_sources" →
       tc.function.arguments = .malformed →
       get_search_query ⟨[⟨⟨some (pre ++ tc :: rest), content⟩⟩]⟩ u
         = .error .jsonDecodeError) := by
  constructor
  · exact fun t ts h => scanToolCalls_cons_skip t ts h
  · intro pre rest tc content u hpre htype hname hargs
    have hscan : scanToolCalls (pre ++ tc :: rest) = .error .jsonDecodeError := by
      rw [scanToolCalls_append_skip pre _ hpre,
        scanToolCalls_cons_malformed tc rest htype hname hargs]
    have htr : truthyToolCalls (some (pre ++ tc :: rest)) = true := by
      cases pre <;> rfl
    simp [get_search_query, htr, hscan]

/-- C4 witness: a malformed non-matching invocation is skipped, and a
malformed matching invocation after a skipped one raises. -/
theorem C4_malformed_arguments_amended_witness :
    scanToolCalls [⟨"retrieval", ⟨"search_sources", .malformed⟩⟩,
        ⟨"function", ⟨"other_tool", .obj []⟩⟩]
      = scanToolCalls [⟨"function", ⟨"other_tool", .obj []⟩⟩]
  ∧ get_search_query
        ⟨[⟨⟨some [⟨"retrieval", ⟨"search_sources", .malformed⟩⟩,
              ⟨"function", ⟨"search_sources", .malformed⟩⟩],
            some "free text"⟩⟩]⟩ "raw input"
      = .error .jsonDecodeError :=
  ⟨C4_malformed_arguments_amended.1 _ _ (Or.inl (by decide)),
   C4_malformed_arguments_amended.2 [⟨"retrieval", ⟨"search_sources", .malformed⟩⟩]
      [] _ (some "free text") "raw input"
      (by intro t ht; simp at ht; subst ht; exact Or.inl (by decide)) rfl rfl rfl⟩

/-! ### C8 — ultimate fallback of the Query Extractor -/

/-- C8 (counterexample): the claim says that when no usable free-text
content is available the raw user input is returned; but on a no-tool-call
response whose content is the sentinel `"0"` — not usable per the claim —
the code returns `"0"`, because the guard compares a string with the
integer `0` and never fires. -/
theorem C8_ultimate_fallback_counterexample :
    get_search_query contentZeroResponse "raw input" = .ok (.str "0")
  ∧ get_search_query contentZeroResponse "raw input" ≠ .ok (.str "raw input") :=
  ⟨rfl, by decide⟩

/-- C8 (amended): the raw user input is returned, byte-for-byte, exactly
when (i) tool invocations are present but the scan falls through without a
match carrying a non-sentinel query, or (ii) no tool invocations are
present and the content is `None` or the empty string.  Any non-empty
content — whitespace-only and the sentinel `"0"` included — is returned
instead of the raw input. -/
theorem C8_ultimate_fallback_amended (tcs : Option (List ToolCall))
    (content : Option String) (u : String) :
    (truthyToolCalls tcs = true → scanToolCalls (tcs.getD []) = .ok none →
       get_search_query ⟨[⟨⟨tcs, content⟩⟩]⟩ u = .ok (.str u))
  ∧ (truthyToolCalls tcs = false → content = none ∨ content = some "" →
       get_search_query ⟨[⟨⟨tcs, content⟩⟩]⟩ u = .ok (.str u)) := by
  constructor
  · intro ht hscan
    simp [get_search_query, ht, hscan]
  · intro ht hc
    rcases hc with hc | hc <;> subst hc <;> simp [get_search_query, ht]

/-- C8 witness: the amended theorem at a response with one non-matching
tool invocation, and at a response with neither tool calls nor content. -/
theorem C8_ultimate_fallback_amended_witness :
    get_search_query
        ⟨[⟨⟨some [⟨"function", ⟨"other_tool", .obj []⟩⟩], some "ignored text"⟩⟩]⟩
        "raw input"
      = .ok (.str "raw input")
  ∧ get_search_query ⟨[⟨⟨none, none⟩⟩]⟩ "raw input" = .ok (.str "raw input") :=
  ⟨(C8_ultimate_fallback_amended (some [⟨"function", ⟨"other_tool", .obj []⟩⟩])
      (some "ignored text") "raw input").1 rfl (by decide),
   (C8_ultimate_fallback_amended none none "raw input").2 rfl (Or.inl rfl)⟩

/-! ### C3 — history accumulation across turns -/

/-- C3 (code bug): at the end of a turn the code executes
`messages = []` followed by `messages.append(messages)`, so the produced
assistant answer is never appended: the new history is the length-one
self-referential list, the assistant turn is not in it, the
`past_messages` slice `messages[:-1]` passed to turn 2 is empty, and the
history length is 1, not `2 * N + 1 = 3` after turn `N = 1`. -/
theorem C3_history_accumulation_code_bug :
    endOfTurnUpdate [LoopMsg.chat "system" "sys", LoopMsg.chat "user" "question one"]
        "answer one" = [LoopMsg.listSelf]
  ∧ LoopMsg.chat "assistant" "answer one" ∉
      endOfTurnUpdate [LoopMsg.chat "system" "sys", LoopMsg.chat "user" "question one"]
        "answer one"
  ∧ pastMessagesArg 1
      (endOfTurnUpdate [LoopMsg.chat "system" "sys", LoopMsg.chat "user" "question one"]
        "answer one") = []
  ∧ (endOfTurnUpdate [LoopMsg.chat "system" "sys", LoopMsg.chat "user" "question one"]
        "answer one").length ≠ 2 * 1 + 1 := by
  refine ⟨rfl, ?_, rfl, by decide⟩
  intro h
  simp [endOfTurnUpdate] at h

/-! ### C5 — empty completion handling -/

/-- C5 (counterexample): the claim says an empty content string is fatal
for the turn; but `content + "\n"` succeeds on the empty string, so the
turn completes normally and displays an empty reply. -/
theorem C5_empty_completion_counterexample :
    display_reply ⟨[⟨⟨none, some ""⟩⟩]⟩ = .ok "\n"
  ∧ (display_reply ⟨[⟨⟨none, some ""⟩⟩]⟩).isOk = true :=
  ⟨rfl, rfl⟩

/-- C5 (amended): a completion with zero choices raises an index error and
a `None` content raises a type error — in both cases the turn fails and no
fallback text is synthesized; but any string content, the empty string
included, is accepted and displayed with a newline appended. -/
theorem C5_empty_completion_amended (cr : ChatCompletion)
    (tcs : Option (List ToolCall)) (s : String) :
    (cr.choices = [] → display_reply cr = .error .indexError)
  ∧ display_reply ⟨[⟨⟨tcs, none⟩⟩]⟩ = .error .typeError
  ∧ display_reply ⟨[⟨⟨tcs, some s⟩⟩]⟩ = .ok (s ++ "\n") := by
  refine ⟨fun h => ?_, rfl, rfl⟩
  simp [display_reply, h]

/-- C5 witness: the amended theorem at a zero-choice completion, at a
`None` content and at a non-empty content. -/
theorem C5_empty_completion_amended_witness :
    display_reply ⟨[]⟩ = .error .indexError
  ∧ display_reply ⟨[⟨⟨none, none⟩⟩]⟩ = .error .typeError
  ∧ display_reply ⟨[⟨⟨none, some "hi"⟩⟩]⟩ = .ok ("hi" ++ "\n") :=
  ⟨(C5_empty_completion_amended ⟨[]⟩ none "x").1 rfl,
   (C5_empty_completion_amended ⟨[]⟩ none "x").2.1,
   (C5_empty_completion_amended ⟨[]⟩ none "hi").2.2⟩

/-! ### C9 — missing fields degrade at retrieval -/

/-- C9: `Doc` construction projects each field with `doc.get(key)`, a
total operation; a search result lacking the content field, the relevance
score or the highlight mapping yields a `Doc` whose corresponding field is
the explicitly-empty `none`, and no error is raised. -/
theorem C9_missing_fields_degrade (r : SearchResult) :
    (mkDoc r).content = r.content
  ∧ (mkDoc r).score = r.score
  ∧ (mkDoc r).highlight = r.highlights
  ∧ (r.content = none → (mkDoc r).content = none)
  ∧ (r.score = none → (mkDoc r).score = none)
  ∧ (r.highlights = none → (mkDoc r).highlight = none) :=
  ⟨rfl, rfl, rfl, fun h => h, fun h => h, fun h => h⟩

/-- C9 witness: the theorem at a search result missing all three fields. -/
theorem C9_missing_fields_degrade_witness :
    (mkDoc ⟨none, none, none⟩).content = none
  ∧ (mkDoc ⟨none, none, none⟩).score = none
  ∧ (mkDoc ⟨none, none, none⟩).highlight = none :=
  ⟨(C9_missing_fields_degrade ⟨none, none, none⟩).2.2.2.1 rfl,
   (C9_missing_fields_degrade ⟨none, none, none⟩).2.2.2.2.1 rfl,
   (C9_missing_fields_degrade ⟨none, none, none⟩).2.2.2.2.2 rfl⟩

/-! ### C7 — retrieval ordering and pagination -/

/-- The inner `for doc in page` loop appends one `Doc` per result in page
order. -/
lemma pageFold_eq (page : List SearchResult) (acc : List Doc) :
    page.foldl (fun ds doc => ds ++ [mkDoc doc]) acc = acc ++ page.map mkDoc := by
  induction page generalizing acc with
  | nil => simp
  | cons d ds ih => simp [ih]

/-- The outer `for page in search_results.by_page()` loop concatenates the
pages in order. -/
lemma collectDocs_foldl_eq (pages : List (List SearchResult)) (acc : List Doc) :
    pages.foldl (fun docs page => page.foldl (fun ds doc => ds ++ [mkDoc doc]) docs) acc
      = acc ++ (pages.flatten).map mkDoc := by
  induction pages generalizing acc with
  | nil => simp
  | cons p ps ih =>
    rw [List.foldl_cons, pageFold_eq, ih]
    simp [List.append_assoc]

/-- C7: draining the paginated results produces exactly one `Doc` per
result document, in exactly the order the pages and the documents within
each page were returned — no reordering, no drops, no duplicates. -/
theorem C7_retrieval_order (pages : List (List SearchResult)) :
    collectDocs pages = (pages.flatten).map mkDoc
  ∧ (collectDocs pages).length = (pages.flatten).length := by
  have h : collectDocs pages = (pages.flatten).map mkDoc := by
    simpa [collectDocs] using collectDocs_foldl_eq pages []
  exact ⟨h, by rw [h, List.length_map]⟩

/-! ### C10 — composition requires highlight mappings -/

/-- The highlight access of one document succeeds exactly when the
document carries a highlight mapping containing the `"content"` key. -/
lemma highlightContent_isOk (d : Doc) :
    (highlightContent d).isOk = true ↔
      ∃ m, d.highlight = some m ∧ (m.lookup "content").isSome = true := by
  cases hm : d.highlight with
  | none => simp [highlightContent, hm, Except.isOk, Except.toBool]
  | some m =>
    cases hl : m.lookup "content" with
    | none =>
      simp only [highlightContent, hm, hl, Except.isOk, Except.toBool,
        Option.some.injEq]
      constructor
      · intro h; exact absurd h (by simp)
      · rintro ⟨m', hm', hs⟩
        subst hm'
        rw [hl] at hs
        exact absurd hs (by simp)
    | some s =>
      simp only [highlightContent, hm, hl, Except.isOk, Except.toBool,
        Option.some.injEq]
      constructor
      · intro _
        refine ⟨m, rfl, ?_⟩
        rw [hl]
        rfl
      · intro _
        trivial

/-- The flattening comprehension succeeds exactly when every document's
highlight access succeeds. -/
lemma gatherHighlights_isOk (docs : List Doc) :
    (gatherHighlights docs).isOk = true ↔
      ∀ d ∈ docs, (highlightContent d).isOk = true := by
  induction docs with
  | nil => simp [gatherHighlights, Except.isOk, Except.toBool]
  | cons d rest ih =>
    rw [List.forall_mem_cons, ← ih]
    cases hd : highlightContent d with
    | error e => simp [gatherHighlights, hd, Except.isOk, Except.toBool]
    | ok s =>
      cases hr : gatherHighlights rest with
      | error e => simp [gatherHighlights, hd, hr, Except.isOk, Except.toBool]
      | ok more => simp [gatherHighlights, hd, hr, Except.isOk, Except.toBool]

/-- Building the grounded user content succeeds exactly when the
comprehension over the highlights does. -/
lemma buildGroundedContent_isOk (query_text : String) (docs : List Doc) :
    (buildGroundedContent query_text docs).isOk = (gatherHighlights docs).isOk := by
  cases h : gatherHighlights docs <;> simp [buildGroundedContent, h, Except.isOk, Except.toBool]

/-- C10: the grounded-answer composition is only defined when every
retrieved document carries a highlight mapping containing the `"content"`
key; a document whose highlight field is `None` makes the composition
raise (subscripting `None`), aborting the turn instead of skipping the
document — the empty-value degradation granted at retrieval does not carry
through to composition. -/
theorem C10_composition_requires_highlights (query_text : String) (docs : List Doc) :
    ((buildGroundedContent query_text docs).isOk = true ↔
       ∀ d ∈ docs, ∃ m, d.highlight = some m ∧ (m.lookup "content").isSome = true)
  ∧ ((∃ d ∈ docs, d.highlight = none) →
       (buildGroundedContent query_text docs).isOk = false) := by
  have hiff : (buildGroundedContent query_text docs).isOk = true ↔
      ∀ d ∈ docs, ∃ m, d.highlight = some m ∧ (m.lookup "content").isSome = true := by
    rw [buildGroundedContent_isOk, gatherHighlights_isOk]
    exact forall_congr' fun d => forall_congr' fun hd => highlightContent_isOk d
  refine ⟨hiff, ?_⟩
  rintro ⟨d, hd, hnone⟩
  cases hbool : (buildGroundedContent query_text docs).isOk with
  | false => rfl
  | true =>
    obtain ⟨m, hm, -⟩ := (hiff.mp hbool) d hd
    rw [hnone] at hm
    cases hm

/-- A retrieved document carrying a content-highlight mapping. -/
def docWithHighlights : Doc :=
  ⟨some "contents", none, some [("content", ["snippet one", "snippet two"])]⟩

/-- A retrieved document whose highlight field degraded to `None`. -/
def docWithoutHighlights : Doc :=
  ⟨some "contents", some 1, none⟩

/-- C10 witness: the theorem at a singleton list with a highlight mapping
and at a list containing a `None`-highlight document. -/
theorem C10_composition_requires_highlights_witness :
    (buildGroundedContent "eye exams" [docWithHighlights]).isOk = true
  ∧ (buildGroundedContent "eye exams" [docWithHighlights, docWithoutHighlights]).isOk
      = false :=
  ⟨(C10_composition_requires_highlights "eye exams" [docWithHighlights]).1.mpr
      (by intro d hd
          rw [List.mem_singleton] at hd
          subst hd
          exact ⟨_, rfl, rfl⟩),
   (C10_composition_requires_highlights "eye exams"
        [docWithHighlights, docWithoutHighlights]).2
      ⟨docWithoutHighlights, by simp, rfl⟩⟩

/-! ### C6 — turn count and per-turn call counts -/

/-- Unfolding of the `while` loop: starting `k` turns from the end, the
trace is `k` copies of the per-turn block. -/
lemma loopFrom_eq_flatten : ∀ (k q m : Nat), m - q = k →
    loopFrom q m = (List.replicate k turnEvents).flatten := by
  intro k
  induction k with
  | zero =>
    intro q m h
    rw [loopFrom, if_neg (by omega : ¬ q < m)]
    simp
  | succ n ih =>
    intro q m h
    rw [loopFrom, if_pos (by omega : q < m), ih (q + 1) m (by omega)]
    simp [List.replicate_succ]

/-- C6: absent a fatal error the loop executes exactly `max_questions`
full cycles and terminates, each cycle issuing exactly one
query-generation completion, one retrieval call and one grounded-answer
completion; with `max_questions = 3` exactly 3 of each occur. -/
theorem C6_turn_count :
    (∀ max_questions : Nat,
       mainLoopEvents max_questions = (List.replicate max_questions turnEvents).flatten)
  ∧ (mainLoopEvents 3).count .retrievalCall = 3
  ∧ (mainLoopEvents 3).count .groundedCompletion = 3
  ∧ (mainLoopEvents 3).count .queryCompletion = 3 := by
  have hmain : ∀ m : Nat, mainLoopEvents m = (List.replicate m turnEvents).flatten :=
    fun m => loopFrom_eq_flatten m 0 m (by omega)
  refine ⟨hmain, ?_, ?_, ?_⟩ <;> rw [hmain 3] <;> decide

end ImprovedRag
